import Mathlib

/-!
Shallow embedding of the product-catalog backend (`src/products/`) and proofs
about its discount, enrichment, validation and filtering logic.

Modelling conventions:
* Django model rows become Lean structures; a table is a `List` of rows.
* `DecimalField` values (prices, discount percentages) are modelled as `Rat`,
  which is exact fixed-precision-friendly arithmetic (no floating point).
* `DateTimeField` values are modelled as integer timestamps (`Int`); only
  their ordering matters to the code under study.
* Python exceptions become `Except` values; `TypeError` and `ValueError` are
  distinguished because the code catches them selectively.
* A Django `QuerySet` returned by `filter` is modelled as the corresponding
  `List.filter`; `order_by` is modelled by `List.insertionSort`; `first()` by
  `List.head?`.
-/

/-- Row of the `Category` model (src/products/models.py). -/
structure Category where
  id : Nat
  name : String
  description : String
  parent : Option Nat
deriving DecidableEq, Repr

/-- Row of the `Product` model (src/products/models.py). `price` is a
`DecimalField(max_digits=10, decimal_places=2)` modelled as `Rat`;
`category` holds the category id of the `ForeignKey`. -/
structure Product where
  id : Nat
  name : String
  description : String
  price : Rat
  category : Nat
  stock_quantity : Int
  sku : String
  is_active : Bool
deriving DecidableEq, Repr

/-- Row of the `ProductImage` model (src/products/models.py); the image blob
itself is out of scope. -/
structure ProductImage where
  id : Nat
  product : Nat
  alt_text : String
  is_primary : Bool
deriving DecidableEq, Repr

/-- Row of the `ProductReview` model (src/products/models.py). -/
structure ProductReview where
  id : Nat
  product : Nat
  user : Nat
  rating : Int
  comment : String
deriving DecidableEq, Repr

/-- Row of the `ProductDiscount` model. The model class is referenced by
src/products/repositories.py and exercised by src/products/tests/; its fields
(`product`, `discount_percentage`, `start_date`, `end_date`, `is_active`) are
taken from that usage. -/
structure ProductDiscount where
  id : Nat
  product : Nat
  discount_percentage : Rat
  start_date : Int
  end_date : Int
  is_active : Bool
deriving DecidableEq, Repr

/-- Python exception kinds the code distinguishes: `int()` raises `TypeError`
for values of non-numeric, non-string type and `ValueError` for unparsable
strings; the repositories raise `ValueError` for their typed failures. -/
inductive PyError where
  | typeError (msg : String)
  | valueError (msg : String)
deriving DecidableEq, Repr

/-- The Django-ORM filter used by
`ProductDiscountRepository.get_active_discount_for_product`
(src/products/repositories.py lines 385-390): same product, `is_active=True`,
`start_date__lte=current_date`, `end_date__gte=current_date`. -/
def discount_active_for (product_id : Nat) (current_date : Int)
    (d : ProductDiscount) : Bool :=
  d.product == product_id && d.is_active && decide (d.start_date ≤ current_date)
    && decide (current_date ≤ d.end_date)

/-- The ordering used by `order_by(-start_date)`: descending `start_date`. -/
def discount_order (a b : ProductDiscount) : Prop :=
  b.start_date ≤ a.start_date

instance : DecidableRel discount_order :=
  fun a b => inferInstanceAs (Decidable (b.start_date ≤ a.start_date))

instance : IsTotal ProductDiscount discount_order :=
  ⟨fun a b => le_total b.start_date a.start_date⟩

instance : IsTrans ProductDiscount discount_order :=
  ⟨fun _ _ _ hab hbc => le_trans hbc hab⟩

/-- `ProductDiscountRepository.get_active_discount_for_product`
(src/products/repositories.py lines 382-392): filter to discounts of the
product that are active at `current_date`, order by descending `start_date`,
return the first row or `None`. -/
def get_active_discount_for_product (db : List ProductDiscount)
    (product_id : Nat) (current_date : Int) : Option ProductDiscount :=
  (List.insertionSort discount_order
    (db.filter (discount_active_for product_id current_date))).head?

/-- The same repository method seen from the store boundary: the body is
wrapped in `try ... except Exception: return None`, so a failing store lookup
is reported as `None` (src/products/repositories.py lines 391-392). -/
def get_active_discount_for_product_from_store
    (store : Except PyError (List ProductDiscount))
    (product_id : Nat) (current_date : Int) : Option ProductDiscount :=
  match store with
  | Except.error _ => none
  | Except.ok db => get_active_discount_for_product db product_id current_date

/-- The Boolean row filter agrees with the spec's active-discount predicate. -/
lemma discount_active_for_iff (product_id : Nat) (t : Int) (d : ProductDiscount) :
    discount_active_for product_id t d = true ↔
      (d.product = product_id ∧ d.is_active = true ∧
        d.start_date ≤ t ∧ t ≤ d.end_date) := by
  simp [discount_active_for, and_assoc]

/-- Sample rows used to instantiate the theorems below. -/
def sample_category : Category :=
  { id := 1, name := "Electronics", description := "", parent := none }

def sample_product : Product :=
  { id := 1, name := "Laptop", description := "A portable computer",
    price := 100, category := 1, stock_quantity := 10, sku := "SKU1",
    is_active := true }

/-- A 20% discount on product 1, active on the window [0, 100]. -/
def sample_discount20 : ProductDiscount :=
  { id := 1, product := 1, discount_percentage := 20,
    start_date := 0, end_date := 100, is_active := true }

/-- A 40% discount on product 1 whose window [-50, -10] has expired by t = 5. -/
def sample_discount40 : ProductDiscount :=
  { id := 2, product := 1, discount_percentage := 40,
    start_date := -50, end_date := -10, is_active := true }

/-- A 30% discount on product 1, active on [3, 100]: it starts later than
`sample_discount20` and so wins the overlap tie-break at t = 5. -/
def sample_discount30 : ProductDiscount :=
  { id := 3, product := 1, discount_percentage := 30,
    start_date := 3, end_date := 100, is_active := true }

/-- Claim C1: `get_active_discount_for_product(P, T)` returns `None` exactly
when no discount row for `P` satisfies `is_active = true ∧ start_date ≤ T ∧
T ≤ end_date` (both bounds inclusive), and any discount it returns satisfies
that predicate. -/
theorem active_discount_none_iff_no_active_row (db : List ProductDiscount)
    (product_id : Nat) (t : Int) :
    (get_active_discount_for_product db product_id t = none ↔
      ∀ d ∈ db, ¬(d.product = product_id ∧ d.is_active = true ∧
        d.start_date ≤ t ∧ t ≤ d.end_date)) ∧
    (∀ r, get_active_discount_for_product db product_id t = some r →
      r.product = product_id ∧ r.is_active = true ∧
        r.start_date ≤ t ∧ t ≤ r.end_date) := by
  constructor
  · rw [get_active_discount_for_product, List.head?_eq_none_iff]
    constructor
    · intro hs d hd hp
      have hmem : d ∈ List.insertionSort discount_order
          (db.filter (discount_active_for product_id t)) := by
        rw [List.mem_insertionSort, List.mem_filter]
        exact ⟨hd, (discount_active_for_iff product_id t d).mpr hp⟩
      rw [hs] at hmem
      exact absurd hmem (List.not_mem_nil d)
    · intro h
      have hf : db.filter (discount_active_for product_id t) = [] := by
        rw [List.filter_eq_nil_iff]
        intro a ha hpa
        exact h a ha ((discount_active_for_iff product_id t a).mp hpa)
      rw [hf]
      rfl
  · intro r hr
    have hmem : r ∈ List.insertionSort discount_order
        (db.filter (discount_active_for product_id t)) :=
      List.mem_of_mem_head? hr
    rw [List.mem_insertionSort, List.mem_filter] at hmem
    exact (discount_active_for_iff product_id t r).mp hmem.2

/-- Witness for C1 at a concrete store: with only an expired discount on
product 1, the lookup at t = 5 yields `None`. -/
theorem active_discount_none_iff_no_active_row_witness :
    get_active_discount_for_product [sample_discount40] 1 5 = none :=
  (active_discount_none_iff_no_active_row [sample_discount40] 1 5).1.mpr
    (by decide)

/-- Claim C2: whenever `get_active_discount_for_product` returns a discount,
that discount is active at `T` and its `start_date` is maximal among the
product's discounts active at `T` (most-recently-started wins); in
particular this covers every product with two or more simultaneously active
discounts. -/
theorem active_discount_latest_start_wins (db : List ProductDiscount)
    (product_id : Nat) (t : Int) (r : ProductDiscount)
    (h : get_active_discount_for_product db product_id t = some r) :
    (r.product = product_id ∧ r.is_active = true ∧
      r.start_date ≤ t ∧ t ≤ r.end_date) ∧
    (∀ d ∈ db, d.product = product_id → d.is_active = true →
      d.start_date ≤ t → t ≤ d.end_date → d.start_date ≤ r.start_date) := by
  have h' : (List.insertionSort discount_order
      (db.filter (discount_active_for product_id t))).head? = some r := h
  cases hcase : List.insertionSort discount_order
      (db.filter (discount_active_for product_id t)) with
  | nil =>
    rw [hcase] at h'
    exact absurd h' (by simp)
  | cons a tl =>
    rw [hcase] at h'
    have ha : a = r := by
      simpa using h'
    subst ha
    have hsorted : List.Sorted discount_order
        (a :: tl) := by
      rw [← hcase]
      exact List.sorted_insertionSort discount_order
        (db.filter (discount_active_for product_id t))
    have hamem : a ∈ db.filter (discount_active_for product_id t) := by
      rw [← List.mem_insertionSort (r := discount_order), hcase]
      exact List.mem_cons_self a tl
    refine ⟨(discount_active_for_iff product_id t a).mp
      (List.mem_filter.mp hamem).2, ?_⟩
    intro d hd h1 h2 h3 h4
    have hdmem : d ∈ a :: tl := by
      rw [← hcase, List.mem_insertionSort, List.mem_filter]
      exact ⟨hd, (discount_active_for_iff product_id t d).mpr ⟨h1, h2, h3, h4⟩⟩
    rcases List.mem_cons.mp hdmem with heq | htl
    · rw [heq]
    · exact List.rel_of_sorted_cons hsorted d htl

/-- Witness for C2: with two overlapping active discounts on product 1 at
t = 5, the returned discount is the later-starting 30% one, and its
`start_date` dominates every active discount in the store. -/
theorem active_discount_latest_start_wins_witness :
    (sample_discount30.product = 1 ∧ sample_discount30.is_active = true ∧
      sample_discount30.start_date ≤ 5 ∧ (5:Int) ≤ sample_discount30.end_date) ∧
    (∀ d ∈ [sample_discount20, sample_discount30], d.product = 1 →
      d.is_active = true → d.start_date ≤ 5 → (5:Int) ≤ d.end_date →
      d.start_date ≤ sample_discount30.start_date) :=
  active_discount_latest_start_wins [sample_discount20, sample_discount30]
    1 5 sample_discount30 (by decide)

/-- Claim C10: the repository lookup is total over store outcomes — a store
failure is reported as `None`, exactly what an absent discount produces, so
the two cases are indistinguishable to the caller. -/
theorem active_discount_store_failure_is_none (product_id : Nat) (t : Int) :
    (∀ e, get_active_discount_for_product_from_store (Except.error e)
      product_id t = none) ∧
    (∀ db : List ProductDiscount,
      (∀ d ∈ db, ¬(d.product = product_id ∧ d.is_active = true ∧
        d.start_date ≤ t ∧ t ≤ d.end_date)) →
      get_active_discount_for_product_from_store (Except.ok db)
        product_id t = none) := by
  constructor
  · intro e
    rfl
  · intro db hdb
    show get_active_discount_for_product db product_id t = none
    exact (active_discount_none_iff_no_active_row db product_id t).1.mpr hdb

/-- Witness for C10: a concrete store failure and a concrete store holding
only an expired discount both report `None`. -/
theorem active_discount_store_failure_is_none_witness :
    get_active_discount_for_product_from_store
      (Except.error (PyError.valueError "database connection lost")) 1 5
      = none ∧
    get_active_discount_for_product_from_store
      (Except.ok [sample_discount40]) 1 5 = none :=
  ⟨(active_discount_store_failure_is_none 1 5).1
      (PyError.valueError "database connection lost"),
    (active_discount_store_failure_is_none 1 5).2 [sample_discount40]
      (by decide)⟩

/-- A Python value as it can reach the service layer from a JSON body or
query string: `None`, an `int`, a `str`, or a value of some other
non-numeric, non-string type (a JSON array is the representative). -/
inductive PyValue where
  | vNone : PyValue
  | vInt : Int → PyValue
  | vStr : String → PyValue
  | vList : List Int → PyValue
deriving DecidableEq, Repr

/-- Integer parsing of a decimal string as accepted by Python `int(str)`:
optional surrounding whitespace, optional sign, then one or more digits. -/
def parse_int_string (s : String) : Option Int :=
  let cs := s.toList.dropWhile Char.isWhitespace
  let cs := (cs.reverse.dropWhile Char.isWhitespace).reverse
  let sign : Int := if cs.head? = some '-' then -1 else 1
  let digits :=
    if cs.head? = some '-' || cs.head? = some '+' then cs.drop 1 else cs
  if digits.length != 0 && digits.all Char.isDigit then
    some (sign * (digits.foldl
      (fun acc c => acc * 10 + ((c.toNat - 48 : Nat) : Int)) 0))
  else
    none

/-- Python `int(v)`: identity on ints, decimal parsing on strings (raising
`ValueError` on parse failure), `TypeError` on `None` and on values of any
other type. -/
def int_of_pyvalue : PyValue → Except PyError Int
  | PyValue.vNone => Except.error (PyError.typeError
      "int() argument must be a string or a number, not NoneType")
  | PyValue.vInt n => Except.ok n
  | PyValue.vStr s =>
    match parse_int_string s with
    | some n => Except.ok n
    | none => Except.error (PyError.valueError
        ("invalid literal for int() with base 10: " ++ s))
  | PyValue.vList _ => Except.error (PyError.typeError
      "int() argument must be a string or a number, not list")

/-- `Product.clean` (src/products/models.py lines 30-38): rejects negative
price, then negative stock. -/
def Product.clean (p : Product) : Except String Unit :=
  if p.price < 0 then Except.error "Price cannot be negative"
  else if p.stock_quantity < 0 then
    Except.error "Stock quantity cannot be negative"
  else Except.ok ()

/-- `Product.save` (src/products/models.py lines 40-43): runs `clean`, then
persists the row (replacing any row with the same id). -/
def Product.save (db : List Product) (p : Product) :
    Except String (List Product) :=
  match Product.clean p with
  | Except.error m => Except.error m
  | Except.ok _ => Except.ok (db.filter (fun q => q.id != p.id) ++ [p])

/-- `ProductReview.clean` (src/products/models.py lines 64-69): rejects a
rating outside 1-5. -/
def ProductReview.clean (r : ProductReview) : Except String Unit :=
  if r.rating < 1 ∨ r.rating > 5 then
    Except.error "Rating must be between 1 and 5"
  else Except.ok ()

/-- `ProductReview.save` (src/products/models.py lines 71-74): runs `clean`,
then persists the row. -/
def ProductReview.save (db : List ProductReview) (r : ProductReview) :
    Except String (List ProductReview) :=
  match ProductReview.clean r with
  | Except.error m => Except.error m
  | Except.ok _ => Except.ok (db.filter (fun q => q.id != r.id) ++ [r])

/-- `ProductRepository.update_stock` (src/products/repositories.py lines
239-249): looks the product up, assigns the new stock and saves; a missing
row raises `ValueError "Product with id .. not found"`, and any failure
inside `save` is wrapped into `ValueError "Error updating product .."`. -/
def ProductRepository.update_stock (db : List Product) (product_id : Nat)
    (new_stock : Int) : Except PyError (Product × List Product) :=
  match db.find? (fun p => p.id == product_id) with
  | none => Except.error (PyError.valueError
      ("Product with id " ++ toString product_id ++ " not found"))
  | some p =>
    let updated := { p with stock_quantity := new_stock }
    match Product.save db updated with
    | Except.error m => Except.error (PyError.valueError
        ("Error updating product " ++ toString product_id ++ ": " ++ m))
    | Except.ok db2 => Except.ok (updated, db2)

/-- `ProductRepository.get_low_stock` (src/products/repositories.py lines
228-230): products with `stock_quantity <= threshold`. -/
def get_low_stock (db : List Product) (threshold : Int) : List Product :=
  db.filter (fun p => decide (p.stock_quantity ≤ threshold))

/-- The success / error payload dictionaries produced by
`ProductService.update_product_stock`. -/
inductive StockPayload where
  | errorPayload (message : String)
  | successPayload (message : String) (new_stock : Int)
deriving DecidableEq, Repr

/-- `ProductService.update_product_stock` (src/products/services.py lines
78-104): `None` yields the required-field payload; `int()` is attempted with
only `ValueError` caught (so a `TypeError` propagates); a negative value
yields the negative payload; otherwise the repository call is made and a
`ValueError` from it is relayed as an error payload. -/
def update_product_stock (db : List Product) (product_id : Nat)
    (new_stock : PyValue) : Except PyError StockPayload :=
  match new_stock with
  | PyValue.vNone => Except.ok (StockPayload.errorPayload
      "stock_quantity is required")
  | v =>
    match int_of_pyvalue v with
    | Except.error (PyError.valueError _) =>
      Except.ok (StockPayload.errorPayload "stock_quantity must be a number")
    | Except.error e => Except.error e
    | Except.ok n =>
      if n < 0 then
        Except.ok (StockPayload.errorPayload
          "stock_quantity cannot be negative")
      else
        match ProductRepository.update_stock db product_id n with
        | Except.ok _ => Except.ok (StockPayload.successPayload
            "Stock updated successfully" n)
        | Except.error (PyError.valueError m) =>
          Except.ok (StockPayload.errorPayload m)
        | Except.error e => Except.error e

/-- `ProductService.get_low_stock_products` (src/products/services.py lines
106-121): `int(threshold)` with only `ValueError` caught and replaced by the
default 10, then the repository filter. -/
def get_low_stock_products (db : List Product) (threshold : PyValue) :
    Except PyError (List Product) :=
  match int_of_pyvalue threshold with
  | Except.ok t => Except.ok (get_low_stock db t)
  | Except.error (PyError.valueError _) => Except.ok (get_low_stock db 10)
  | Except.error e => Except.error e

/-- A product row violating the declared stock invariant. -/
def bad_product : Product :=
  { id := 2, name := "Broken", description := "negative stock",
    price := 5, category := 1, stock_quantity := -3, sku := "SKU2",
    is_active := true }

/-- A review row violating the declared rating invariant. -/
def bad_review : ProductReview :=
  { id := 1, product := 1, user := 1, rating := 6,
    comment := "Exceeds the scale" }

/-- Claim C4, counterexample: for an input value of non-numeric, non-string
type (a list), `int()` raises `TypeError`, which the service does not catch —
the call raises instead of returning the
`stock_quantity must be a number` payload the claim promises for every
non-integer-convertible value. -/
theorem update_product_stock_typeerror_counterexample :
    update_product_stock [sample_product] 1 (PyValue.vList []) =
      Except.error (PyError.typeError
        "int() argument must be a string or a number, not list") := rfl

/-- Claim C4 (amended): `None` yields the required-field payload; a string
that does not parse as an integer yields the number payload; a negative
integer yields the negative payload; a valid non-negative integer yields the
success payload echoing the value when the product exists (with a valid
stored price), and the repository's NotFound is relayed as an error payload —
but a value of non-numeric, non-string type raises `TypeError` instead of
producing a payload. -/
theorem update_product_stock_validation (db : List Product)
    (product_id : Nat) :
    update_product_stock db product_id PyValue.vNone =
      Except.ok (StockPayload.errorPayload "stock_quantity is required") ∧
    (∀ s, parse_int_string s = none →
      update_product_stock db product_id (PyValue.vStr s) =
        Except.ok (StockPayload.errorPayload
          "stock_quantity must be a number")) ∧
    (∀ n : Int, n < 0 →
      update_product_stock db product_id (PyValue.vInt n) =
        Except.ok (StockPayload.errorPayload
          "stock_quantity cannot be negative")) ∧
    (∀ n : Int, 0 ≤ n → ∀ p, db.find? (fun q => q.id == product_id) = some p →
      0 ≤ p.price →
      update_product_stock db product_id (PyValue.vInt n) =
        Except.ok (StockPayload.successPayload
          "Stock updated successfully" n)) ∧
    (∀ n : Int, 0 ≤ n → db.find? (fun q => q.id == product_id) = none →
      update_product_stock db product_id (PyValue.vInt n) =
        Except.ok (StockPayload.errorPayload
          ("Product with id " ++ toString product_id ++ " not found"))) := by
  refine ⟨rfl, ?_, ?_, ?_, ?_⟩
  · intro s hs
    simp [update_product_stock, int_of_pyvalue, hs]
  · intro n hn
    simp [update_product_stock, int_of_pyvalue, hn]
  · intro n hn p hp hprice
    have hfound : ¬ p.price < 0 := not_lt.mpr hprice
    simp [update_product_stock, int_of_pyvalue, not_lt.mpr hn,
      ProductRepository.update_stock, hp, Product.save, Product.clean,
      hfound, not_lt.mpr hn]
  · intro n hn hnone
    simp [update_product_stock, int_of_pyvalue, not_lt.mpr hn,
      ProductRepository.update_stock, hnone]

/-- Witness for the amended C4 at concrete inputs: a non-numeric string, a
negative value, a successful update and a missing product. -/
theorem update_product_stock_validation_witness :
    update_product_stock [sample_product] 1 (PyValue.vStr "abc") =
      Except.ok (StockPayload.errorPayload
        "stock_quantity must be a number") ∧
    update_product_stock [sample_product] 1 (PyValue.vInt (-5)) =
      Except.ok (StockPayload.errorPayload
        "stock_quantity cannot be negative") ∧
    update_product_stock [sample_product] 1 (PyValue.vInt 7) =
      Except.ok (StockPayload.successPayload
        "Stock updated successfully" 7) ∧
    update_product_stock [sample_product] 99 (PyValue.vInt 7) =
      Except.ok (StockPayload.errorPayload
        ("Product with id " ++ toString (99:Nat) ++ " not found")) :=
  ⟨(update_product_stock_validation [sample_product] 1).2.1 "abc" (by decide),
   (update_product_stock_validation [sample_product] 1).2.2.1 (-5) (by decide),
   (update_product_stock_validation [sample_product] 1).2.2.2.1 7 (by decide)
      sample_product (by decide) (by decide),
   (update_product_stock_validation [sample_product] 99).2.2.2.2 7 (by decide)
      (by decide)⟩

/-- Claim C5, counterexample: `get_low_stock_products(None)` raises
`TypeError` — `int(None)` fails with `TypeError`, not `ValueError`, and only
`ValueError` is caught and replaced by the default threshold, so the call is
not total over caller-supplied values. -/
theorem get_low_stock_products_none_counterexample :
    get_low_stock_products [sample_product] PyValue.vNone =
      Except.error (PyError.typeError
        "int() argument must be a string or a number, not NoneType") := rfl

/-- Claim C5 (amended): for an integer threshold the filter runs as given;
for a string threshold a failed parse (a `ValueError`) is silently replaced
by the default threshold 10 — but a threshold of non-numeric, non-string
type (e.g. `None`) raises `TypeError` instead of being replaced. -/
theorem get_low_stock_products_default_on_value_error (db : List Product) :
    (∀ n : Int, get_low_stock_products db (PyValue.vInt n) =
      Except.ok (get_low_stock db n)) ∧
    (∀ s n, parse_int_string s = some n →
      get_low_stock_products db (PyValue.vStr s) =
        Except.ok (get_low_stock db n)) ∧
    (∀ s, parse_int_string s = none →
      get_low_stock_products db (PyValue.vStr s) =
        Except.ok (get_low_stock db 10)) := by
  refine ⟨fun n => rfl, ?_, ?_⟩
  · intro s n hs
    simp [get_low_stock_products, int_of_pyvalue, hs]
  · intro s hs
    simp [get_low_stock_products, int_of_pyvalue, hs]

/-- Witness for the amended C5: the unparsable threshold string is replaced
by the default 10. -/
theorem get_low_stock_products_default_on_value_error_witness :
    get_low_stock_products [sample_product] (PyValue.vStr "abc") =
      Except.ok (get_low_stock [sample_product] 10) :=
  (get_low_stock_products_default_on_value_error [sample_product]).2.2
    "abc" (by decide)

/-- Claim C6, counterexample: the model layer does reject direct writes of
invalid rows — saving a product with negative stock, or a review with rating
6, fails with the validation error rather than persisting. -/
theorem storage_rejects_invalid_rows_counterexample :
    Product.save [] bad_product =
      Except.error "Stock quantity cannot be negative" ∧
    ProductReview.save [] bad_review =
      Except.error "Rating must be between 1 and 5" := by
  constructor
  · rfl
  · rfl

/-- Claim C6 (amended): `Product.save` and `ProductReview.save` call `clean`
before persisting, so a write of a product with negative price or stock, or
of a review with rating outside 1-5, is rejected even when the service layer
is bypassed. -/
theorem model_save_rejects_invalid_rows (dbp : List Product)
    (dbr : List ProductReview) (p : Product) (r : ProductReview) :
    (p.price < 0 ∨ p.stock_quantity < 0 →
      Except.isOk (Product.save dbp p) = false) ∧
    (r.rating < 1 ∨ r.rating > 5 →
      Except.isOk (ProductReview.save dbr r) = false) := by
  constructor
  · intro h
    by_cases hp : p.price < 0
    · simp [Product.save, Product.clean, hp, Except.isOk, Except.toBool]
    · have hs : p.stock_quantity < 0 := h.resolve_left hp
      simp [Product.save, Product.clean, hp, hs, Except.isOk, Except.toBool]
  · intro h
    simp [ProductReview.save, ProductReview.clean, h, Except.isOk,
      Except.toBool]

/-- Witness for the amended C6 at the concrete invalid rows. -/
theorem model_save_rejects_invalid_rows_witness :
    Except.isOk (Product.save [] bad_product) = false ∧
    Except.isOk (ProductReview.save [] bad_review) = false :=
  ⟨(model_save_rejects_invalid_rows [] [] bad_product bad_review).1
      (Or.inr (by decide)),
   (model_save_rejects_invalid_rows [] [] bad_product bad_review).2
      (Or.inr (by decide))⟩

/-- Substring test on character lists (needle occurs contiguously). -/
def char_list_has_sub : List Char → List Char → Bool
  | [], needle => needle.isEmpty
  | hay@(_ :: t), needle => needle.isPrefixOf hay || char_list_has_sub t needle

/-- Django `icontains`: case-insensitive substring match. -/
def str_icontains (haystack needle : String) : Bool :=
  char_list_has_sub haystack.toLower.toList needle.toLower.toList

/-- `ProductRepository.search_by_name_or_description`
(src/products/repositories.py lines 232-237): case-insensitive substring
match against name OR description. -/
def search_by_name_or_description (db : List Product) (query : String) :
    List Product :=
  db.filter (fun p => str_icontains p.name query
    || str_icontains p.description query)

/-- `ProductRepository.get_by_price_range` (src/products/repositories.py
lines 224-226): inclusive price bounds. The service calls it with
`float(inf)` as the upper bound when only `min_price` is given; that
unbounded top is modelled as `none`. -/
def get_by_price_range (db : List Product) (min_price : Rat)
    (max_price : Option Rat) : List Product :=
  db.filter (fun p => decide (min_price ≤ p.price) &&
    (match max_price with
     | some m => decide (p.price ≤ m)
     | none => true))

/-- `ProductRepository.get_by_id` (src/products/repositories.py lines
215-222): the row, or `ValueError "Product with id .. not found"`. -/
def ProductRepository.get_by_id (db : List Product) (product_id : Nat) :
    Except PyError Product :=
  match db.find? (fun p => p.id == product_id) with
  | some p => Except.ok p
  | none => Except.error (PyError.valueError
      ("Product with id " ++ toString product_id ++ " not found"))

/-- `CategoryRepository.get_by_id` (src/products/repositories.py lines
269-276): the row, or `ValueError "Category with id .. not found"`. -/
def CategoryRepository.get_by_id (db : List Category) (category_id : Nat) :
    Except PyError Category :=
  match db.find? (fun c => c.id == category_id) with
  | some c => Except.ok c
  | none => Except.error (PyError.valueError
      ("Category with id " ++ toString category_id ++ " not found"))

/-- `ProductReviewRepository.get_by_product` (src/products/repositories.py
lines 328-330). -/
def ProductReviewRepository.get_by_product (db : List ProductReview)
    (product_id : Nat) : List ProductReview :=
  db.filter (fun r => r.product == product_id)

/-- The filter dictionary built by the product list view
(src/products/views.py lines 114-120); the `is_active` key is extracted but
never used by the service, so it is omitted. Values are already parsed. -/
structure ListingFilters where
  category : Option Nat
  search : Option String
  min_price : Option Rat
  max_price : Option Rat
deriving DecidableEq, Repr

/-- The filtering phase of
`ProductService.get_products_with_filters_and_enrichment`
(src/products/services.py lines 151-168). Note that the search and
price-range branches restart from the full table (`self.product_repository`)
instead of narrowing `queryset`. -/
def apply_listing_filters (db : List Product) (filters : ListingFilters) :
    List Product :=
  let queryset := db
  let queryset :=
    match filters.category with
    | some c => queryset.filter (fun p => p.category == c)
    | none => queryset
  let queryset :=
    match filters.search with
    | some s => search_by_name_or_description db s
    | none => queryset
  if filters.min_price.isSome || filters.max_price.isSome then
    get_by_price_range db (filters.min_price.getD 0) filters.max_price
  else queryset

/-- The derived fields the enrichment loop attaches to each product
(src/products/services.py lines 170-193). -/
structure EnrichedProduct where
  product : Product
  category_name : String
  image_count : Nat
  average_rating : Rat
deriving DecidableEq, Repr

/-- The body of the enrichment loop for one product
(src/products/services.py lines 171-192): category name with the
`"Unknown Category"` fallback, image count, and average review rating with
0 for zero reviews. -/
def enrich_product (categories : List Category) (reviews : List ProductReview)
    (images : List ProductImage) (p : Product) : EnrichedProduct :=
  let category_name :=
    match CategoryRepository.get_by_id categories p.category with
    | Except.ok c => c.name
    | Except.error _ => "Unknown Category"
  let image_count := (images.filter (fun i => i.product == p.id)).length
  let product_reviews := ProductReviewRepository.get_by_product reviews p.id
  let average_rating : Rat :=
    if product_reviews.isEmpty then 0
    else ((product_reviews.foldl (fun acc r => acc + r.rating) 0 : Int) : Rat)
      / (product_reviews.length : Rat)
  { product := p, category_name := category_name, image_count := image_count,
    average_rating := average_rating }

/-- `ProductService.get_products_with_filters_and_enrichment`
(src/products/services.py lines 138-194): filtering phase, then the
enrichment loop over the resulting queryset. -/
def get_products_with_filters_and_enrichment (db : List Product)
    (categories : List Category) (reviews : List ProductReview)
    (images : List ProductImage) (filters : ListingFilters) :
    List EnrichedProduct :=
  (apply_listing_filters db filters).map
    (enrich_product categories reviews images)

/-- `ProductService._calculate_discounted_price` (src/products/services.py
lines 211-229): `P` when there is no discount, else `P - P * (D / 100)` in
exact decimal arithmetic. -/
def calculate_discounted_price (product : Product)
    (discount : Option ProductDiscount) : Rat :=
  match discount with
  | none => product.price
  | some d => product.price - product.price * (d.discount_percentage / 100)

/-- The product view returned by
`ProductService.get_product_with_discount_price`: the row plus the attached
discount fields (src/products/services.py lines 245-248). -/
structure DiscountedProductView where
  product : Product
  discounted_price : Rat
  has_active_discount : Bool
  discount_percentage : Rat
deriving DecidableEq, Repr

/-- `ProductService.get_product_with_discount_price` (src/products/services.py
lines 231-250), with the query time passed explicitly in place of
`timezone.now()`. -/
def get_product_with_discount_price (products : List Product)
    (discounts : List ProductDiscount) (product_id : Nat) (now : Int) :
    Except PyError DiscountedProductView :=
  match ProductRepository.get_by_id products product_id with
  | Except.error e => Except.error e
  | Except.ok product =>
    let active_discount := get_active_discount_for_product discounts
      product_id now
    Except.ok
      { product := product
        discounted_price := calculate_discounted_price product active_discount
        has_active_discount := active_discount.isSome
        discount_percentage :=
          match active_discount with
          | some d => d.discount_percentage
          | none => 0 }

/-- Projection lemmas for `enrich_product`, used by the enrichment proofs. -/
lemma enrich_product_product (categories : List Category)
    (reviews : List ProductReview) (images : List ProductImage)
    (p : Product) :
    (enrich_product categories reviews images p).product = p := rfl

lemma enrich_product_category_name (categories : List Category)
    (reviews : List ProductReview) (images : List ProductImage)
    (p : Product) :
    (enrich_product categories reviews images p).category_name =
      match CategoryRepository.get_by_id categories p.category with
      | Except.ok c => c.name
      | Except.error _ => "Unknown Category" := rfl

lemma enrich_product_average_rating (categories : List Category)
    (reviews : List ProductReview) (images : List ProductImage)
    (p : Product) :
    (enrich_product categories reviews images p).average_rating =
      if (ProductReviewRepository.get_by_product reviews p.id).isEmpty then 0
      else (((ProductReviewRepository.get_by_product reviews p.id).foldl
          (fun acc r => acc + r.rating) 0 : Int) : Rat)
        / ((ProductReviewRepository.get_by_product reviews p.id).length : Rat)
    := rfl

/-- Claim C3: when the product lookup succeeds, the enriched view carries
`discounted_price = P`, `has_active_discount = false`,
`discount_percentage = 0` if no discount is active, and
`discounted_price = P - P * (D / 100)` (exact rational arithmetic),
`has_active_discount = true`, `discount_percentage = D` if a discount with
percentage `D` is active. -/
theorem discounted_price_enrichment (products : List Product)
    (discounts : List ProductDiscount) (product_id : Nat) (now : Int)
    (p : Product)
    (h : ProductRepository.get_by_id products product_id = Except.ok p) :
    (get_active_discount_for_product discounts product_id now = none →
      get_product_with_discount_price products discounts product_id now =
        Except.ok (DiscountedProductView.mk p p.price false 0)) ∧
    (∀ d, get_active_discount_for_product discounts product_id now = some d →
      get_product_with_discount_price products discounts product_id now =
        Except.ok (DiscountedProductView.mk p
          (p.price - p.price * (d.discount_percentage / 100)) true
          d.discount_percentage)) := by
  constructor
  · intro ha
    simp [get_product_with_discount_price, h, ha, calculate_discounted_price]
  · intro d hd
    simp [get_product_with_discount_price, h, hd, calculate_discounted_price]

/-- Witness for C3, matching the spec's worked scenario: price 100.00, one
active 20% discount and one expired 40% discount at t = 5 give the enriched
price 80, not 60. -/
theorem discounted_price_enrichment_witness :
    get_product_with_discount_price [sample_product]
      [sample_discount20, sample_discount40] 1 5 =
      Except.ok (DiscountedProductView.mk sample_product 80 true 20) := by
  have h2 : get_active_discount_for_product
      [sample_discount20, sample_discount40] 1 5 = some sample_discount20 := by
    decide
  have h3 := (discounted_price_enrichment [sample_product]
    [sample_discount20, sample_discount40] 1 5 sample_product rfl).2
    sample_discount20 h2
  rw [h3]
  norm_num [sample_product, sample_discount20]

/-- Claim C7: when several listing filters are supplied they do not AND
together — a supplied search filter makes the result the bare search result
(any category restriction is discarded), and a supplied price-range filter
makes the result the bare price-range result (any category or search
restriction is discarded), so the last-applied filter wins. -/
theorem listing_last_filter_wins (db : List Product)
    (categories : List Category) (reviews : List ProductReview)
    (images : List ProductImage) (filters : ListingFilters) :
    (filters.min_price = none → filters.max_price = none →
      ∀ s, filters.search = some s →
      get_products_with_filters_and_enrichment db categories reviews images
          filters =
        (search_by_name_or_description db s).map
          (enrich_product categories reviews images)) ∧
    ((filters.min_price ≠ none ∨ filters.max_price ≠ none) →
      get_products_with_filters_and_enrichment db categories reviews images
          filters =
        (get_by_price_range db (filters.min_price.getD 0)
            filters.max_price).map
          (enrich_product categories reviews images)) := by
  rcases filters with ⟨fc, fs, fmn, fmx⟩
  constructor
  · intro h1 h2 s hs
    simp only at h1 h2 hs
    subst h1 h2 hs
    simp [get_products_with_filters_and_enrichment, apply_listing_filters]
  · intro h
    have hb : (fmn.isSome || fmx.isSome) = true := by
      rcases h with h | h <;>
        simp only at h <;>
        simp [Option.isSome_iff_ne_none, h]
    simp [get_products_with_filters_and_enrichment, apply_listing_filters, hb]

/-- Filters as supplied together: a category, a search string, and (in the
second sample) a price range. -/
def search_filters : ListingFilters :=
  { category := some 99, search := some "laptop",
    min_price := none, max_price := none }

def price_filters : ListingFilters :=
  { category := some 99, search := some "laptop",
    min_price := some 50, max_price := some 150 }

/-- Witness for C7: with category, search and (second case) price range all
supplied, the listing equals the bare search result, respectively the bare
price-range result. -/
theorem listing_last_filter_wins_witness :
    get_products_with_filters_and_enrichment [sample_product]
        [sample_category] [] [] search_filters =
      (search_by_name_or_description [sample_product] "laptop").map
        (enrich_product [sample_category] [] []) ∧
    get_products_with_filters_and_enrichment [sample_product]
        [sample_category] [] [] price_filters =
      (get_by_price_range [sample_product] 50 (some 150)).map
        (enrich_product [sample_category] [] []) :=
  ⟨(listing_last_filter_wins [sample_product] [sample_category] [] []
      search_filters).1 rfl rfl "laptop" rfl,
   (listing_last_filter_wins [sample_product] [sample_category] [] []
      price_filters).2 (Or.inl (by decide))⟩

/-- Claim C8: every product in an enriched listing carries the resolved
category name when the category lookup succeeds and the sentinel
`"Unknown Category"` when it fails; the lookup failure is absorbed, never
propagated. -/
theorem listing_category_name_enrichment (db : List Product)
    (categories : List Category) (reviews : List ProductReview)
    (images : List ProductImage) (filters : ListingFilters) :
    ∀ e ∈ get_products_with_filters_and_enrichment db categories reviews
        images filters,
      (∀ c, CategoryRepository.get_by_id categories e.product.category =
          Except.ok c → e.category_name = c.name) ∧
      (∀ m, CategoryRepository.get_by_id categories e.product.category =
          Except.error m → e.category_name = "Unknown Category") := by
  intro e he
  simp only [get_products_with_filters_and_enrichment, List.mem_map] at he
  obtain ⟨p, hp, rfl⟩ := he
  constructor
  · intro c hc
    rw [enrich_product_product] at hc
    rw [enrich_product_category_name, hc]
  · intro m hm
    rw [enrich_product_product] at hm
    rw [enrich_product_category_name, hm]

/-- Empty filter dictionary: every key absent. -/
def all_none_filters : ListingFilters :=
  { category := none, search := none, min_price := none, max_price := none }

/-- Witness for C8: in a concrete listing, product 1 resolves to
`"Electronics"`, and the same product listed against an empty category table
gets the sentinel. -/
theorem listing_category_name_enrichment_witness :
    (enrich_product [sample_category] [] [] sample_product).category_name =
      "Electronics" ∧
    (enrich_product [] [] [] sample_product).category_name =
      "Unknown Category" :=
  ⟨(listing_category_name_enrichment [sample_product] [sample_category] [] []
        all_none_filters
        (enrich_product [sample_category] [] [] sample_product)
        (by simp [get_products_with_filters_and_enrichment,
          apply_listing_filters, all_none_filters])).1 sample_category rfl,
   (listing_category_name_enrichment [sample_product] [] [] []
        all_none_filters
        (enrich_product [] [] [] sample_product)
        (by simp [get_products_with_filters_and_enrichment,
          apply_listing_filters, all_none_filters])).2
      (PyError.valueError
        ("Category with id " ++ toString (1:Nat) ++ " not found")) rfl⟩

/-- Claim C9: every product in an enriched listing carries as
`average_rating` the arithmetic mean of its reviews' ratings when at least
one review exists, and exactly 0 when none do — the zero-review case is a
defined value, not a division error. -/
theorem listing_average_rating_enrichment (db : List Product)
    (categories : List Category) (reviews : List ProductReview)
    (images : List ProductImage) (filters : ListingFilters) :
    ∀ e ∈ get_products_with_filters_and_enrichment db categories reviews
        images filters,
      (ProductReviewRepository.get_by_product reviews e.product.id = [] →
        e.average_rating = 0) ∧
      (∀ l, ProductReviewRepository.get_by_product reviews e.product.id = l →
        l ≠ [] →
        e.average_rating =
          ((l.foldl (fun acc r => acc + r.rating) 0 : Int) : Rat)
            / (l.length : Rat)) := by
  intro e he
  simp only [get_products_with_filters_and_enrichment, List.mem_map] at he
  obtain ⟨p, hp, rfl⟩ := he
  constructor
  · intro hnil
    rw [enrich_product_product] at hnil
    rw [enrich_product_average_rating, hnil]
    simp
  · intro l hl hne
    rw [enrich_product_product] at hl
    rw [enrich_product_average_rating, hl]
    simp [List.isEmpty_iff, hne]

/-- Reviews used by the C9 witness. -/
def review4 : ProductReview :=
  { id := 1, product := 1, user := 1, rating := 4,
    comment := "Solid machine overall" }

def review5 : ProductReview :=
  { id := 2, product := 1, user := 2, rating := 5,
    comment := "Excellent build quality" }

/-- Witness for C9: ratings 4 and 5 average to 9/2, and a product with no
reviews gets exactly 0. -/
theorem listing_average_rating_enrichment_witness :
    (enrich_product [sample_category] [review4, review5] []
        sample_product).average_rating = 9 / 2 ∧
    (enrich_product [sample_category] [] [] sample_product).average_rating
      = 0 := by
  constructor
  · have h := (listing_average_rating_enrichment [sample_product]
      [sample_category] [review4, review5] [] all_none_filters
      (enrich_product [sample_category] [review4, review5] [] sample_product)
      (by simp [get_products_with_filters_and_enrichment,
        apply_listing_filters, all_none_filters])).2
      [review4, review5] rfl (by decide)
    rw [h]
    norm_num [review4, review5]
  · exact (listing_average_rating_enrichment [sample_product]
      [sample_category] [] [] all_none_filters
      (enrich_product [sample_category] [] [] sample_product)
      (by simp [get_products_with_filters_and_enrichment,
        apply_listing_filters, all_none_filters])).1 rfl
